import Mathlib

/-!
# Verification of the KosherZmanim astronomical-calendar core

A shallow embedding of the astronomical core of the KosherZmanim library
(`AstronomicalCalendar.ts`, `util/Zman.ts` which also holds the
`SunTimesCalculator`, and the `polyfills/Utils` helpers), together with
theorems settling the frozen claims about it.

Modelling conventions:
* JavaScript `number` values are modelled as exact rationals `ℚ`; the
  `NaN` absent sentinel (`Long_MIN_VALUE = NaN` in the source) and the
  `null` object are both modelled as `Option.none` at the points where the
  source tests for them.
* `Temporal.PlainDate` is modelled as an integer day number; a
  `Temporal.ZonedDateTime` produced by `getDateFromTime` is modelled by its
  UTC calendar components (`CalendarTime`); where only the instant matters
  (comparisons, millisecond offsets) a `ZonedDateTime` is modelled by its
  integer `epochMilliseconds`.
* The transcendental helpers (`Math.sin` … `Math.acos`) of the
  `SunTimesCalculator` are floating-point in the source; they are abstracted
  as parameters of the embedded calculator, with `Option ℚ` results for the
  ones that can return `NaN` (`acos`, `asin` outside `[-1, 1]`).
* The calculator strategy held by an `AstronomicalCalendar` instance is
  modelled as a pair of function fields returning `Option ℚ` (the UTC
  fractional hour, `none` for `NaN`).
-/

/-- JavaScript `Math.trunc` on an exact rational: rounds toward zero. -/
def jsTrunc (q : ℚ) : ℤ := if q < 0 then ⌈q⌉ else ⌊q⌋

/-- `GeoLocation` is an external collaborator of the core (its class is not
part of the embedded sources). Modelled from the spec: it supplies
`latitude`, `longitude` (west-negative), `elevation` (meters, ≥ 0) and an
antimeridian day-adjustment in `{-1, 0, 1}`; the timezone identifier is not
needed by the embedded computations (instants are compared in UTC). -/
structure GeoLocation where
  latitude : ℚ
  longitude : ℚ
  elevation : ℚ
  antimeridianAdjustment : ℤ
deriving DecidableEq

/-- The UTC calendar components of the `Temporal.ZonedDateTime` built by
`AstronomicalCalendar.getDateFromTime`: an (antimeridian- and
boundary-adjusted) day number plus hour/minute/second/millisecond fields. -/
structure CalendarTime where
  day : ℤ
  hour : ℤ
  minute : ℤ
  second : ℤ
  millisecond : ℤ
deriving DecidableEq

/-- The instant (epoch milliseconds) of a `CalendarTime`, used whenever the
source compares or offsets the resulting `ZonedDateTime`s. -/
def CalendarTime.epochMs (t : CalendarTime) : ℤ :=
  t.day * 86400000 + t.hour * 3600000 + t.minute * 60000 + t.second * 1000 + t.millisecond

/-- State of an `AstronomicalCalendar`: the nominal date, the location, and
the pluggable calculator strategy (`getUTCSunrise` / `getUTCSunset` of an
`AstronomicalCalculator`), taking the adjusted date, the location, a zenith
and the `adjustForElevation` flag and returning the UTC fractional hour or
`none` for the `NaN` sentinel. -/
structure AstronomicalCalendar where
  date : ℤ
  geoLocation : GeoLocation
  calcUTCSunrise : ℤ → GeoLocation → ℚ → Bool → Option ℚ
  calcUTCSunset : ℤ → GeoLocation → ℚ → Bool → Option ℚ

namespace AstronomicalCalendar

/-- `AstronomicalCalendar.GEOMETRIC_ZENITH` (90°). -/
def GEOMETRIC_ZENITH : ℚ := 90

/-- `AstronomicalCalendar.CIVIL_ZENITH` (96°). -/
def CIVIL_ZENITH : ℚ := 96

/-- `AstronomicalCalendar.NAUTICAL_ZENITH` (102°). -/
def NAUTICAL_ZENITH : ℚ := 102

/-- `AstronomicalCalendar.ASTRONOMICAL_ZENITH` (108°). -/
def ASTRONOMICAL_ZENITH : ℚ := 108

/-- `AstronomicalCalendar.MINUTE_MILLIS` (60,000). -/
def MINUTE_MILLIS : ℚ := 60 * 1000

/-- `AstronomicalCalendar.getAdjustedDate`: the nominal date shifted by the
location's antimeridian adjustment. -/
def getAdjustedDate (c : AstronomicalCalendar) : ℤ :=
  c.date + c.geoLocation.antimeridianAdjustment

/-- `AstronomicalCalendar.getUTCSunrise(zenith)`: elevation-adjusted
delegation to the calculator. -/
def getUTCSunrise (c : AstronomicalCalendar) (zenith : ℚ) : Option ℚ :=
  c.calcUTCSunrise c.getAdjustedDate c.geoLocation zenith true

/-- `AstronomicalCalendar.getUTCSeaLevelSunrise(zenith)`. -/
def getUTCSeaLevelSunrise (c : AstronomicalCalendar) (zenith : ℚ) : Option ℚ :=
  c.calcUTCSunrise c.getAdjustedDate c.geoLocation zenith false

/-- `AstronomicalCalendar.getUTCSunset(zenith)`. -/
def getUTCSunset (c : AstronomicalCalendar) (zenith : ℚ) : Option ℚ :=
  c.calcUTCSunset c.getAdjustedDate c.geoLocation zenith true

/-- `AstronomicalCalendar.getUTCSeaLevelSunset(zenith)`. -/
def getUTCSeaLevelSunset (c : AstronomicalCalendar) (zenith : ℚ) : Option ℚ :=
  c.calcUTCSunset c.getAdjustedDate c.geoLocation zenith false

/-- Core of `AstronomicalCalendar.getDateFromTime` on a non-`NaN` fractional
hour: repeated truncation into hour/minute/second/millisecond components and
the day-boundary correction driven by `Math.trunc(longitude / 15)`. -/
def dateFromTimeCore (longitude : ℚ) (adjustedDay : ℤ) (time : ℚ) (isSunrise : Bool) :
    CalendarTime :=
  let hours : ℤ := jsTrunc time
  let t1 : ℚ := time - hours
  let minutes : ℤ := jsTrunc (t1 * 60)
  let t2 : ℚ := t1 * 60 - minutes
  let seconds : ℤ := jsTrunc (t2 * 60)
  let t3 : ℚ := t2 * 60 - seconds
  let localTimeHours : ℤ := jsTrunc (longitude / 15)
  let day : ℤ :=
    if isSunrise = true ∧ 18 < localTimeHours + hours then adjustedDay - 1
    else if isSunrise = false ∧ localTimeHours + hours < 6 then adjustedDay + 1
    else adjustedDay
  ⟨day, hours, minutes, seconds, jsTrunc (t3 * 1000)⟩

/-- `AstronomicalCalendar.getDateFromTime` for a calendar instance (the
`NaN` input case is handled by the `Option` layer at every call site). -/
def getDateFromTime (c : AstronomicalCalendar) (time : ℚ) (isSunrise : Bool) : CalendarTime :=
  dateFromTimeCore c.geoLocation.longitude c.getAdjustedDate time isSunrise

/-- `AstronomicalCalendar.getSunrise`: elevation-adjusted sunrise at the
geometric zenith, `null` when the calculator returns the sentinel. -/
def getSunrise (c : AstronomicalCalendar) : Option CalendarTime :=
  (c.getUTCSunrise GEOMETRIC_ZENITH).map fun t => c.getDateFromTime t true

/-- `AstronomicalCalendar.getSeaLevelSunrise`. -/
def getSeaLevelSunrise (c : AstronomicalCalendar) : Option CalendarTime :=
  (c.getUTCSeaLevelSunrise GEOMETRIC_ZENITH).map fun t => c.getDateFromTime t true

/-- `AstronomicalCalendar.getSunset`. -/
def getSunset (c : AstronomicalCalendar) : Option CalendarTime :=
  (c.getUTCSunset GEOMETRIC_ZENITH).map fun t => c.getDateFromTime t false

/-- `AstronomicalCalendar.getSeaLevelSunset`. -/
def getSeaLevelSunset (c : AstronomicalCalendar) : Option CalendarTime :=
  (c.getUTCSeaLevelSunset GEOMETRIC_ZENITH).map fun t => c.getDateFromTime t false

/-- `AstronomicalCalendar.getSunriseOffsetByDegrees(offsetZenith)`. -/
def getSunriseOffsetByDegrees (c : AstronomicalCalendar) (offsetZenith : ℚ) :
    Option CalendarTime :=
  (c.getUTCSunrise offsetZenith).map fun t => c.getDateFromTime t true

/-- `AstronomicalCalendar.getSunsetOffsetByDegrees(offsetZenith)`. -/
def getSunsetOffsetByDegrees (c : AstronomicalCalendar) (offsetZenith : ℚ) :
    Option CalendarTime :=
  (c.getUTCSunset offsetZenith).map fun t => c.getDateFromTime t false

/-- `AstronomicalCalendar.getTimeOffset(time, offset)`: `null` when `time`
is `null` or `offset` is the `NaN` sentinel (the source also compares
against `Long_MIN_VALUE`, itself `NaN`), otherwise the instant shifted by
`Math.trunc(offset)` milliseconds. -/
def getTimeOffset (time : Option ℤ) (offset : Option ℚ) : Option ℤ :=
  match time, offset with
  | some t, some o => some (t + jsTrunc o)
  | _, _ => none

/-- `AstronomicalCalendar.getTemporalHour(startOfday, endOfDay)`:
`Long_MIN_VALUE` (`NaN`, modelled `none`) when either bound is `null`,
otherwise `Math.floor` of the millisecond span divided by 12. -/
def getTemporalHour (startOfday endOfDay : Option ℤ) : Option ℤ :=
  match startOfday, endOfDay with
  | some a, some b => some ((b - a).fdiv 12)
  | _, _ => none

/-- `AstronomicalCalendar.getSunTransit(startOfDay, endOfDay)`: the start
bound offset by six temporal hours. -/
def getSunTransit (startOfDay endOfDay : Option ℤ) : Option ℤ :=
  getTimeOffset startOfDay
    ((getTemporalHour startOfDay endOfDay).map fun h : ℤ => (h : ℚ) * 6)

end AstronomicalCalendar

/-- `IntegerUtils.compare` from `polyfills/Utils`: `0` on equality, else
`1`/`-1` by order. -/
def IntegerUtils.compare (x y : ℚ) : ℤ :=
  if x = y then 0 else if y < x then 1 else -1

/-- The character loop of `StringUtils.compareTo`: at the first differing
position return the difference of the character codes, otherwise the
difference of the lengths. -/
def strCmpList : List Char → List Char → ℤ
  | [], [] => 0
  | [], _ :: ys => -(1 + (ys.length : ℤ))
  | _ :: xs, [] => 1 + (xs.length : ℤ)
  | x :: xs, y :: ys => if x = y then strCmpList xs ys else (x.toNat : ℤ) - (y.toNat : ℤ)

/-- `StringUtils.compareTo` from `polyfills/Utils` (Java-style
lexicographic comparison). -/
def StringUtils.compareTo (string1 string2 : String) : ℤ :=
  strCmpList string1.toList string2.toList

/-- The `Zman` record (`util/Zman.ts`): the fields consumed by the three
comparators. `none` models a missing (`undefined`/`null`) payload; a
date-based zman is represented by its instant in epoch milliseconds. -/
structure Zman where
  label : Option String
  zman : Option ℤ
  duration : Option ℚ

namespace Zman

/-- `Zman.compareDateOrder`: compares instants, a missing instant counting
as epoch `0` (`zman1.zman?.epochMilliseconds || 0`). -/
def compareDateOrder (zman1 zman2 : Zman) : ℤ :=
  IntegerUtils.compare ((zman1.zman.getD 0 : ℤ) : ℚ) ((zman2.zman.getD 0 : ℤ) : ℚ)

/-- `Zman.compareNameOrder`: compares labels, a missing label counting as
the empty string. -/
def compareNameOrder (zman1 zman2 : Zman) : ℤ :=
  StringUtils.compareTo (zman1.label.getD "") (zman2.label.getD "")

/-- `Zman.compareDurationOrder`: compares durations, a missing duration
counting as `0`. -/
def compareDurationOrder (zman1 zman2 : Zman) : ℤ :=
  IntegerUtils.compare (zman1.duration.getD 0) (zman2.duration.getD 0)

end Zman

/-- The runtime shapes accepted by `AstronomicalCalendar.setDate`:
a `Temporal.PlainDate`, a JS `Date`, a string, a number, or any other
value (which matches none of the `instanceof`/`typeof` branches). -/
inductive SetDateInput where
  | plainDate (day : ℤ)
  | jsDate (epochMilliseconds : ℤ)
  | str (s : String)
  | num (epochMilliseconds : ℤ)
  | unsupported
deriving DecidableEq

/-- The UTC calendar day holding a given epoch-millisecond instant
(`Temporal.Instant.fromEpochMilliseconds(..).toZonedDateTimeISO('UTC').toPlainDate()`). -/
def epochDayOf (epochMilliseconds : ℤ) : ℤ := epochMilliseconds.fdiv 86400000

/-- `AstronomicalCalendar.setDate`, acting on the stored date field
(`none` when the definitely-assigned field was never set). String parsing
(`Temporal.PlainDate.from`) is external library code, abstracted as
`fromString`. An input matching none of the four branches falls through
with no assignment. -/
def AstronomicalCalendar.setDate (fromString : String → ℤ) (current : Option ℤ) :
    SetDateInput → Option ℤ
  | .plainDate d => some d
  | .jsDate ms => some (epochDayOf ms)
  | .str s => some (fromString s)
  | .num ms => some (epochDayOf ms)
  | .unsupported => current

/-- Outcome of a run of a solar-dip search loop under an explicit fuel
bound: `running` if the fuel ran out with the loop still going (the source
loop has no iteration cap), `thrown` if evaluating the loop condition threw
a `TypeError` — the source compares two `Temporal.ZonedDateTime` values
with a JavaScript relational operator, which calls `valueOf`, and
`ZonedDateTime.prototype.valueOf` throws per the Temporal specification —
and `result degrees` if the loop exited normally returning the exact
decimal accumulator. -/
inductive DipSearchOutcome where
  | running
  | thrown
  | result (degrees : ℚ)
deriving DecidableEq

/-- The while loop of `getSunriseSolarDipFromOffset` with an explicit fuel
bound, evaluating its condition
`offsetByDegrees === null || ((minutes < 0 && offsetByDegrees < offsetByTime!) || (minutes > 0 && offsetByDegrees > offsetByTime!))`
the way JavaScript does. A `null` candidate short-circuits the condition to
`true`: the pass steps the exact decimal accumulator by `0.0001`° (adding
for positive `minutes`, subtracting otherwise) and re-invokes
`getSunriseOffsetByDegrees (90 + degrees)`. For a non-null candidate with
`minutes ≠ 0`, one of the two `Temporal.ZonedDateTime` relational
comparisons is evaluated and throws `TypeError` (`valueOf` throws per the
Temporal specification). With `minutes = 0` both conjunctions
short-circuit to `false` and the loop exits with the accumulator. The
target `offsetByTime` is carried but never consumed: the comparison that
would read it throws first. -/
def AstronomicalCalendar.sunriseDipLoop (c : AstronomicalCalendar) (minutes : ℚ)
    (offsetByTime : Option ℤ) : ℕ → ℚ → Option CalendarTime → DipSearchOutcome
  | 0, _, _ => DipSearchOutcome.running
  | fuel + 1, degrees, offsetByDegrees =>
    match offsetByDegrees with
    | none =>
      let degrees' := if 0 < minutes then degrees + 1 / 10000 else degrees - 1 / 10000
      c.sunriseDipLoop minutes offsetByTime fuel degrees'
        (c.getSunriseOffsetByDegrees (90 + degrees'))
    | some _ =>
      if minutes = 0 then DipSearchOutcome.result degrees else DipSearchOutcome.thrown

/-- The while loop of `getSunsetSolarDipFromOffset`: its increment is
`0.001`° and it re-invokes `getSunsetOffsetByDegrees (90 + degrees)`; its
condition mirrors the sunrise one (`minutes > 0` paired with `<`,
`minutes < 0` with `>`), and throws the same `TypeError` for any non-null
candidate with `minutes ≠ 0`. -/
def AstronomicalCalendar.sunsetDipLoop (c : AstronomicalCalendar) (minutes : ℚ)
    (offsetByTime : Option ℤ) : ℕ → ℚ → Option CalendarTime → DipSearchOutcome
  | 0, _, _ => DipSearchOutcome.running
  | fuel + 1, degrees, offsetByDegrees =>
    match offsetByDegrees with
    | none =>
      let degrees' := if 0 < minutes then degrees + 1 / 1000 else degrees - 1 / 1000
      c.sunsetDipLoop minutes offsetByTime fuel degrees'
        (c.getSunsetOffsetByDegrees (90 + degrees'))
    | some _ =>
      if minutes = 0 then DipSearchOutcome.result degrees else DipSearchOutcome.thrown

/-- `AstronomicalCalendar.getSunriseSolarDipFromOffset(minutes)` with fuel:
target is sea-level sunrise shifted by `-(minutes * MINUTE_MILLIS)`, the
degree accumulator starts at `0`, and the first candidate is sea-level
sunrise itself. -/
def AstronomicalCalendar.getSunriseSolarDipFromOffset (c : AstronomicalCalendar)
    (minutes : ℚ) (fuel : ℕ) : DipSearchOutcome :=
  c.sunriseDipLoop minutes
    (AstronomicalCalendar.getTimeOffset (c.getSeaLevelSunrise.map CalendarTime.epochMs)
      (some (-(minutes * AstronomicalCalendar.MINUTE_MILLIS))))
    fuel 0 c.getSeaLevelSunrise

/-- `AstronomicalCalendar.getSunsetSolarDipFromOffset(minutes)` with fuel:
target is sea-level sunset shifted by `+(minutes * MINUTE_MILLIS)`. -/
def AstronomicalCalendar.getSunsetSolarDipFromOffset (c : AstronomicalCalendar)
    (minutes : ℚ) (fuel : ℕ) : DipSearchOutcome :=
  c.sunsetDipLoop minutes
    (AstronomicalCalendar.getTimeOffset (c.getSeaLevelSunset.map CalendarTime.epochMs)
      (some (minutes * AstronomicalCalendar.MINUTE_MILLIS)))
    fuel 0 c.getSeaLevelSunset

/-- The `SunTimesCalculator` (US Naval Almanac approximation), abstracted
over its floating-point transcendental helpers: `sinDeg`, `cosDeg`,
`tanDeg` are total; `atanDeg` stands for `360/(2π) * Math.atan`;
`asinDeg`/`acosDeg` return `none` exactly where `Math.asin`/`Math.acos`
return `NaN` (arguments outside `[-1, 1]`). `elevationDip` is the
elevation-dependent adjustment of the base class. Modelled from the spec:
`AstronomicalCalculator.adjustZenith` and its elevation dip term are not in
the embedded sources; the spec specifies a fixed ≈`5/6`° refraction plus
solar-radius constant plus a dip that is zero at zero elevation. -/
structure SunTimesCalculator where
  sinDeg : ℚ → ℚ
  cosDeg : ℚ → ℚ
  tanDeg : ℚ → ℚ
  atanDeg : ℚ → ℚ
  asinDeg : ℚ → Option ℚ
  acosDeg : ℚ → Option ℚ
  elevationDip : ℚ → ℚ

namespace SunTimesCalculator

/-- `SunTimesCalculator.DEG_PER_HOUR` = 360/24. -/
def DEG_PER_HOUR : ℚ := 360 / 24

/-- `getHoursFromMeridian`: longitude over degrees-per-hour. -/
def getHoursFromMeridian (longitude : ℚ) : ℚ := longitude / DEG_PER_HOUR

/-- `getApproxTimeDays`: approximate event time in days since Jan 1,
assuming a 6am sunrise / 6pm sunset. -/
def getApproxTimeDays (dayOfYear : ℤ) (hoursFromMeridian : ℚ) (isSunrise : Bool) : ℚ :=
  if isSunrise then (dayOfYear : ℚ) + (6 - hoursFromMeridian) / 24
  else (dayOfYear : ℚ) + (18 - hoursFromMeridian) / 24

/-- `getMeanAnomaly`: the Sun's mean anomaly in degrees. -/
def getMeanAnomaly (dayOfYear : ℤ) (longitude : ℚ) (isSunrise : Bool) : ℚ :=
  9856 / 10000 * getApproxTimeDays dayOfYear (getHoursFromMeridian longitude) isSunrise
    - 3289 / 1000

/-- `getSunTrueLongitude`: true longitude from the mean anomaly, folded
into `[0, 360)` by the two corrective branches of the source. -/
def getSunTrueLongitude (stc : SunTimesCalculator) (sunMeanAnomaly : ℚ) : ℚ :=
  let l := sunMeanAnomaly + 1916 / 1000 * stc.sinDeg sunMeanAnomaly
    + 20 / 1000 * stc.sinDeg (2 * sunMeanAnomaly) + 282634 / 1000
  let l1 := if 360 ≤ l then l - 360 else l
  if l1 < 0 then l1 + 360 else l1

/-- `getSunRightAscensionHours`: right ascension (in hours) with the
quadrant correction. -/
def getSunRightAscensionHours (stc : SunTimesCalculator) (sunTrueLongitude : ℚ) : ℚ :=
  let a := 91764 / 100000 * stc.tanDeg sunTrueLongitude
  let ra := stc.atanDeg a
  let lQuadrant := (⌊sunTrueLongitude / 90⌋ : ℚ) * 90
  let raQuadrant := (⌊ra / 90⌋ : ℚ) * 90
  (ra + (lQuadrant - raQuadrant)) / DEG_PER_HOUR

/-- `getCosLocalHourAngle`: cosine of the local hour angle; `none` when a
`NaN` arises (declination out of `asin` range, or a zero denominator, whose
IEEE infinity is mapped to `NaN` by the enclosing `acos`). -/
def getCosLocalHourAngle (stc : SunTimesCalculator) (sunTrueLongitude latitude zenith : ℚ) :
    Option ℚ :=
  let sinDec := 39782 / 100000 * stc.sinDeg sunTrueLongitude
  (stc.asinDeg sinDec).bind fun dec =>
    let cosDec := stc.cosDeg dec
    let den := cosDec * stc.cosDeg latitude
    if den = 0 then none
    else some ((stc.cosDeg zenith - sinDec * stc.sinDeg latitude) / den)

/-- `getLocalMeanTime`: fractional hours since midnight, local mean time. -/
def getLocalMeanTime (localHour sunRightAscensionHours approxTimeDays : ℚ) : ℚ :=
  localHour + sunRightAscensionHours - 6571 / 100000 * approxTimeDays - 6622 / 1000

/-- The first normalization loop of `getTimeUTC`:
`while (processedTime < 0) processedTime += 24`. -/
def wrapUp (q : ℚ) : ℚ :=
  if q < 0 then wrapUp (q + 24) else q
termination_by (⌈-q / 24⌉).toNat
decreasing_by
  have h24 : (-(q + 24)) / 24 = -q / 24 - 1 := by ring
  rw [h24, Int.ceil_sub_one]
  have h1 : (0 : ℚ) < -q / 24 := by
    apply div_pos _ (by norm_num)
    linarith
  have h2 : 0 < ⌈-q / 24⌉ := Int.ceil_pos.mpr h1
  omega

/-- The second normalization loop of `getTimeUTC`:
`while (processedTime >= 24) processedTime -= 24`. -/
def wrapDown (q : ℚ) : ℚ :=
  if 24 ≤ q then wrapDown (q - 24) else q
termination_by (⌊q / 24⌋).toNat
decreasing_by
  have h24 : (q - 24) / 24 = q / 24 - 1 := by ring
  rw [h24, Int.floor_sub_one]
  have h1 : (1 : ℚ) ≤ q / 24 := by
    rw [le_div_iff₀ (by norm_num : (0:ℚ) < 24)]
    linarith
  have h2 : 1 ≤ ⌊q / 24⌋ := by
    have := Int.le_floor.mpr (by exact_mod_cast h1)
    exact_mod_cast this
  omega

/-- The pre-normalization value of `getTimeUTC`: local mean time minus the
meridian offset, before the `±24` wraparound loops; `none` when a `NaN`
arose anywhere in the chain. -/
def preWrapTimeUTC (stc : SunTimesCalculator) (dayOfYear : ℤ)
    (longitude latitude zenith : ℚ) (isSunrise : Bool) : Option ℚ :=
  let sunTrueLong := stc.getSunTrueLongitude (getMeanAnomaly dayOfYear longitude isSunrise)
  let ra := stc.getSunRightAscensionHours sunTrueLong
  (stc.getCosLocalHourAngle sunTrueLong latitude zenith).bind fun cosLocalHourAngle =>
    (stc.acosDeg cosLocalHourAngle).map fun acosValue =>
      let localHourAngle := if isSunrise then 360 - acosValue else acosValue
      let localHour := localHourAngle / DEG_PER_HOUR
      getLocalMeanTime localHour ra
          (getApproxTimeDays dayOfYear (getHoursFromMeridian longitude) isSunrise)
        - getHoursFromMeridian longitude

/-- `SunTimesCalculator.getTimeUTC`: the full chain, with the final value
normalized into `[0, 24)` by the two wraparound loops; `none` models the
`NaN` sentinel. -/
def getTimeUTC (stc : SunTimesCalculator) (dayOfYear : ℤ)
    (longitude latitude zenith : ℚ) (isSunrise : Bool) : Option ℚ :=
  (stc.preWrapTimeUTC dayOfYear longitude latitude zenith isSunrise).map fun t =>
    wrapDown (wrapUp t)

/-- Modelled from the spec: `AstronomicalCalculator.adjustZenith` (the
abstract base class is not among the embedded sources) adds the fixed
refraction and solar-radius constants (≈ `5/6`° combined) plus the
elevation dip term to the zenith. -/
def adjustZenith (stc : SunTimesCalculator) (zenith elevation : ℚ) : ℚ :=
  zenith + 5 / 6 + stc.elevationDip elevation

/-- `SunTimesCalculator.getUTCSunrise(date, geoLocation, zenith, adjustForElevation)`. -/
def getUTCSunrise (stc : SunTimesCalculator) (dayOfYear : ℤ) (geoLocation : GeoLocation)
    (zenith : ℚ) (adjustForElevation : Bool) : Option ℚ :=
  let elevation := if adjustForElevation then geoLocation.elevation else 0
  stc.getTimeUTC dayOfYear geoLocation.longitude geoLocation.latitude
    (stc.adjustZenith zenith elevation) true

/-- `SunTimesCalculator.getUTCSunset(date, geoLocation, zenith, adjustForElevation)`. -/
def getUTCSunset (stc : SunTimesCalculator) (dayOfYear : ℤ) (geoLocation : GeoLocation)
    (zenith : ℚ) (adjustForElevation : Bool) : Option ℚ :=
  let elevation := if adjustForElevation then geoLocation.elevation else 0
  stc.getTimeUTC dayOfYear geoLocation.longitude geoLocation.latitude
    (stc.adjustZenith zenith elevation) false

/-- The geometric non-crossing condition of the almanac algorithm: the
cosine of the local hour angle is absent (`NaN`) or falls outside
`[-1, 1]`, so `acos` cannot produce an hour angle — the sun never crosses
the given zenith on that date at that latitude. -/
def crossingFails (stc : SunTimesCalculator) (dayOfYear : ℤ)
    (longitude latitude zenith : ℚ) (isSunrise : Bool) : Prop :=
  let sunTrueLong := stc.getSunTrueLongitude (getMeanAnomaly dayOfYear longitude isSunrise)
  stc.getCosLocalHourAngle sunTrueLong latitude zenith = none ∨
    ∃ cosH, stc.getCosLocalHourAngle sunTrueLong latitude zenith = some cosH ∧
      ¬(-1 ≤ cosH ∧ cosH ≤ 1)

end SunTimesCalculator

/-- The day-boundary correction exactly as the specification words it:
identical to `dateFromTimeCore` except that `localOffsetHours` is
`⌊longitude / 15⌋` (mathematical floor) instead of the source's
`Math.trunc(longitude / 15)`. Used to compare the spec's wording against
the code. -/
def dateFromTimeFloorSpec (longitude : ℚ) (adjustedDay : ℤ) (time : ℚ) (isSunrise : Bool) :
    CalendarTime :=
  let hours : ℤ := jsTrunc time
  let t1 : ℚ := time - hours
  let minutes : ℤ := jsTrunc (t1 * 60)
  let t2 : ℚ := t1 * 60 - minutes
  let seconds : ℤ := jsTrunc (t2 * 60)
  let t3 : ℚ := t2 * 60 - seconds
  let localOffsetHours : ℤ := ⌊longitude / 15⌋
  let day : ℤ :=
    if isSunrise = true ∧ 18 < localOffsetHours + hours then adjustedDay - 1
    else if isSunrise = false ∧ localOffsetHours + hours < 6 then adjustedDay + 1
    else adjustedDay
  ⟨day, hours, minutes, seconds, jsTrunc (t3 * 1000)⟩

/-- Closed-form restatement of the decomposition performed by
`dateFromTimeCore` on a nonnegative fractional hour: each component is a
difference of scaled floors, and the day-boundary correction uses the
truncated `longitude / 15`. -/
def dateFromTimeSpec (longitude : ℚ) (adjustedDay : ℤ) (time : ℚ) (isSunrise : Bool) :
    CalendarTime :=
  let localOffsetHours : ℤ := jsTrunc (longitude / 15)
  let h : ℤ := ⌊time⌋
  let m : ℤ := ⌊60 * time⌋ - 60 * ⌊time⌋
  let s : ℤ := ⌊3600 * time⌋ - 60 * ⌊60 * time⌋
  let ms : ℤ := ⌊3600000 * time⌋ - 1000 * ⌊3600 * time⌋
  let day : ℤ :=
    if isSunrise = true ∧ 18 < localOffsetHours + h then adjustedDay - 1
    else if isSunrise = false ∧ localOffsetHours + h < 6 then adjustedDay + 1
    else adjustedDay
  ⟨day, h, m, s, ms⟩

/-- A calendar whose calculator never finds the event (permanent polar
day/night): both strategy functions return the `NaN` sentinel for every
input. -/
def nullCalculatorCalendar : AstronomicalCalendar :=
  ⟨0, ⟨0, 0, 0, 0⟩, fun _ _ _ _ => none, fun _ _ _ _ => none⟩

/-- A calendar whose calculator always finds the events (an ordinary
mid-latitude case): sunrise at 6:00 and sunset at 18:00 UTC. -/
def clearSkyCalendar : AstronomicalCalendar :=
  ⟨0, ⟨0, 0, 0, 0⟩, fun _ _ _ _ => some 6, fun _ _ _ _ => some 18⟩

/-- A concrete, exactly computable instantiation of the abstract
transcendental helpers, used to exhibit runs of the embedded
`SunTimesCalculator`: the sine/tangent/arctangent channels are zero, the
cosine is the antitone affine map `x ↦ 1 - x / 90`, and `asin`/`acos`
return `none` exactly outside `[-1, 1]`. -/
def linearSunCalc : SunTimesCalculator where
  sinDeg := fun _ => 0
  cosDeg := fun x => 1 - x / 90
  tanDeg := fun _ => 0
  atanDeg := fun _ => 0
  asinDeg := fun x => if -1 ≤ x ∧ x ≤ 1 then some x else none
  acosDeg := fun x => if -1 ≤ x ∧ x ≤ 1 then some (90 * (1 - x)) else none
  elevationDip := fun e => e

/-- An equatorial location at longitude 90°E with elevation 9 m. -/
def eastGeo : GeoLocation := ⟨0, 90, 9, 0⟩

theorem jsTrunc_intCast (k : ℤ) : jsTrunc (k : ℚ) = k := by
  unfold jsTrunc
  split <;> simp

theorem jsTrunc_of_nonneg {q : ℚ} (h : 0 ≤ q) : jsTrunc q = ⌊q⌋ := by
  unfold jsTrunc
  rw [if_neg (not_lt.mpr h)]

/-- C6: for every calendar state, `getSunriseOffsetByDegrees 90` returns
exactly what `getSunrise` returns, and `getSunsetOffsetByDegrees 90`
exactly what `getSunset` returns (in particular both sides are `null`
together): the four methods run the same calculator call at the geometric
zenith followed by the same `getDateFromTime` conversion. -/
theorem offsetByDegrees_geometric_zenith_identity :
    ∀ c : AstronomicalCalendar,
      c.getSunriseOffsetByDegrees 90 = c.getSunrise ∧
      c.getSunsetOffsetByDegrees 90 = c.getSunset :=
  fun _ => ⟨rfl, rfl⟩

/-- C10: `setDate` with an argument that is none of the four supported
shapes matches no branch of the `instanceof`/`typeof` chain, returns
normally, and leaves the stored date field unchanged. -/
theorem setDate_unsupported_is_noop :
    ∀ (fromString : String → ℤ) (current : Option ℤ),
      AstronomicalCalendar.setDate fromString current SetDateInput.unsupported = current :=
  fun _ _ => rfl

/-- C4: for non-absent bounds with `b > a`, `getTemporalHour` is the
truncated quotient of the millisecond span by 12 (the source's
`Math.floor` agrees with truncation on the positive span), and it returns
the absent sentinel whenever either bound is absent. -/
theorem temporalHour_truncated_twelfth :
    (∀ a b : ℤ, a < b →
      AstronomicalCalendar.getTemporalHour (some a) (some b) = some ((b - a).tdiv 12)) ∧
    (∀ x : Option ℤ,
      AstronomicalCalendar.getTemporalHour none x = none ∧
      AstronomicalCalendar.getTemporalHour x none = none) := by
  constructor
  · intro a b hab
    show some ((b - a).fdiv 12) = some ((b - a).tdiv 12)
    rw [Int.fdiv_eq_ediv _ (by norm_num : (0:ℤ) ≤ 12),
      Int.tdiv_eq_ediv (by omega) (by norm_num : (0:ℤ) ≤ 12)]
  · intro x
    exact ⟨by cases x <;> rfl, by cases x <;> rfl⟩

theorem temporalHour_truncated_twelfth_witness :
    (0 : ℤ) < 13 ∧
      AstronomicalCalendar.getTemporalHour (some 0) (some 13) =
        some (((13 : ℤ) - 0).tdiv 12) :=
  ⟨by norm_num, temporalHour_truncated_twelfth.1 0 13 (by norm_num)⟩

/-- C5 counterexample: at the non-absent bounds `a = 0`, `b = 2` (epoch
milliseconds, `b > a`) the transit is `a + 6 * ⌊(b - a) / 12⌋ = 0`, while
the exact midpoint of `a` and `b` is `1`; so `getSunTransit` is not the
exact midpoint of the two instants. -/
theorem sunTransit_midpoint_counterexample :
    AstronomicalCalendar.getSunTransit (some 0) (some 2) = some 0 ∧
      ((0 : ℚ) + 2) / 2 = 1 ∧ (0 : ℤ) ≠ 1 := by
  have h1 : ((2 : ℤ) - 0).fdiv 12 = 0 := by decide
  refine ⟨?_, by norm_num, by decide⟩
  simp [AstronomicalCalendar.getSunTransit, AstronomicalCalendar.getTemporalHour,
    AstronomicalCalendar.getTimeOffset, h1, jsTrunc]

/-- C5 amended: `getSunTransit a b` equals `a + 6 × getTemporalHour a b`
exactly; this is the exact midpoint of `a` and `b` when the span is
divisible by 12, and in general lies within 6 ms at or below the exact
midpoint. -/
theorem sunTransit_six_temporal_hours :
    ∀ a b : ℤ, a < b →
      AstronomicalCalendar.getTemporalHour (some a) (some b) = some ((b - a).fdiv 12) ∧
      AstronomicalCalendar.getSunTransit (some a) (some b) =
        some (a + 6 * ((b - a).fdiv 12)) ∧
      (((a + b : ℤ) : ℚ) / 2 - 6 < ((a + 6 * ((b - a).fdiv 12) : ℤ) : ℚ) ∧
        ((a + 6 * ((b - a).fdiv 12) : ℤ) : ℚ) ≤ ((a + b : ℤ) : ℚ) / 2) ∧
      ((b - a) % 12 = 0 →
        ((a + 6 * ((b - a).fdiv 12) : ℤ) : ℚ) = ((a + b : ℤ) : ℚ) / 2) := by
  intro a b hab
  have hfd : (b - a).fdiv 12 = (b - a) / 12 := Int.fdiv_eq_ediv _ (by norm_num)
  refine ⟨rfl, ?_, ⟨?_, ?_⟩, ?_⟩
  · show AstronomicalCalendar.getTimeOffset _ _ = _
    have hcast : (((b - a).fdiv 12 : ℤ) : ℚ) * 6 = (((b - a).fdiv 12 * 6 : ℤ) : ℚ) := by
      push_cast
      ring
    simp only [AstronomicalCalendar.getTemporalHour, Option.map_some',
      AstronomicalCalendar.getTimeOffset, hcast, jsTrunc_intCast]
    congr 1
    ring
  · have h1 : a + b < 2 * (a + 6 * ((b - a) / 12)) + 12 := by omega
    have h2 : ((a : ℚ) + (b : ℚ)) < 2 * ((a : ℚ) + 6 * (((b - a) / 12 : ℤ) : ℚ)) + 12 := by
      exact_mod_cast h1
    rw [hfd]
    push_cast
    push_cast at h2
    linarith
  · have h1 : 2 * (a + 6 * ((b - a) / 12)) ≤ a + b := by omega
    have h2 : 2 * ((a : ℚ) + 6 * (((b - a) / 12 : ℤ) : ℚ)) ≤ (a : ℚ) + (b : ℚ) := by
      exact_mod_cast h1
    rw [hfd]
    push_cast
    push_cast at h2
    linarith
  · intro hdvd
    have h1 : 2 * (a + 6 * ((b - a) / 12)) = a + b := by omega
    have h2 : 2 * ((a : ℚ) + 6 * (((b - a) / 12 : ℤ) : ℚ)) = (a : ℚ) + (b : ℚ) := by
      exact_mod_cast h1
    rw [hfd]
    push_cast
    push_cast at h2
    linarith

theorem sunTransit_six_temporal_hours_witness :
    (0 : ℤ) < 14 ∧
      AstronomicalCalendar.getSunTransit (some 0) (some 14) =
        some (0 + 6 * (((14 : ℤ) - 0).fdiv 12)) :=
  ⟨by norm_num, (sunTransit_six_temporal_hours 0 14 (by norm_num)).2.1⟩

/-- C2: absence propagates. If the calculator's UTC fractional-hour result
is the `NaN` sentinel, then `getSunrise`, `getSunset`,
`getSunriseOffsetByDegrees` and `getSunsetOffsetByDegrees` are `null`;
`getTemporalHour` is the absent sentinel when either bound is `null`;
`getSunTransit` is `null` when either bound is `null`; and
`getTimeOffset` is `null` whenever its time is `null` or its offset is
absent, and otherwise adds the (truncated) millisecond offset — exactly the
offset for whole-millisecond values. -/
theorem absence_propagates :
    (∀ c : AstronomicalCalendar, c.getUTCSunrise 90 = none → c.getSunrise = none) ∧
    (∀ c : AstronomicalCalendar, c.getUTCSunset 90 = none → c.getSunset = none) ∧
    (∀ (c : AstronomicalCalendar) (z : ℚ),
      c.getUTCSunrise z = none → c.getSunriseOffsetByDegrees z = none) ∧
    (∀ (c : AstronomicalCalendar) (z : ℚ),
      c.getUTCSunset z = none → c.getSunsetOffsetByDegrees z = none) ∧
    (∀ a b : Option ℤ, a = none ∨ b = none →
      AstronomicalCalendar.getTemporalHour a b = none) ∧
    (∀ a b : Option ℤ, a = none ∨ b = none →
      AstronomicalCalendar.getSunTransit a b = none) ∧
    (∀ (t : Option ℤ) (o : Option ℚ), t = none ∨ o = none →
      AstronomicalCalendar.getTimeOffset t o = none) ∧
    (∀ (t : ℤ) (o : ℚ),
      AstronomicalCalendar.getTimeOffset (some t) (some o) = some (t + jsTrunc o)) ∧
    (∀ t k : ℤ,
      AstronomicalCalendar.getTimeOffset (some t) (some (k : ℚ)) = some (t + k)) := by
  refine ⟨?_, ?_, ?_, ?_, ?_, ?_, ?_, ?_, ?_⟩
  · intro c h
    simp [AstronomicalCalendar.getSunrise, AstronomicalCalendar.GEOMETRIC_ZENITH, h]
  · intro c h
    simp [AstronomicalCalendar.getSunset, AstronomicalCalendar.GEOMETRIC_ZENITH, h]
  · intro c z h
    simp [AstronomicalCalendar.getSunriseOffsetByDegrees, h]
  · intro c z h
    simp [AstronomicalCalendar.getSunsetOffsetByDegrees, h]
  · rintro a b (rfl | rfl)
    · cases b <;> rfl
    · cases a <;> rfl
  · rintro a b (rfl | rfl)
    · cases b <;> rfl
    · cases a <;> rfl
  · rintro t o (rfl | rfl)
    · cases o <;> rfl
    · cases t <;> rfl
  · intro t o
    rfl
  · intro t k
    rw [show AstronomicalCalendar.getTimeOffset (some t) (some (k : ℚ)) =
      some (t + jsTrunc (k : ℚ)) from rfl, jsTrunc_intCast]

theorem absence_propagates_witness :
    nullCalculatorCalendar.getUTCSunrise 90 = none ∧
    nullCalculatorCalendar.getSunrise = none ∧
    nullCalculatorCalendar.getSunsetOffsetByDegrees 96 = none ∧
    AstronomicalCalendar.getTemporalHour none (some 5) = none ∧
    AstronomicalCalendar.getSunTransit (some 3) none = none ∧
    AstronomicalCalendar.getTimeOffset none (some 1) = none ∧
    AstronomicalCalendar.getTimeOffset (some 2) (some (7 / 2)) = some (2 + jsTrunc (7 / 2)) ∧
    AstronomicalCalendar.getTimeOffset (some 2) (some ((3 : ℤ) : ℚ)) = some (2 + 3) :=
  ⟨rfl,
    absence_propagates.1 nullCalculatorCalendar rfl,
    absence_propagates.2.2.2.1 nullCalculatorCalendar 96 rfl,
    absence_propagates.2.2.2.2.1 none (some 5) (Or.inl rfl),
    absence_propagates.2.2.2.2.2.1 (some 3) none (Or.inr rfl),
    absence_propagates.2.2.2.2.2.2.1 none (some 1) (Or.inl rfl),
    absence_propagates.2.2.2.2.2.2.2.1 2 (7 / 2),
    absence_propagates.2.2.2.2.2.2.2.2 2 3⟩

/-- C1 counterexample: at longitude `-74` (west), a sunrise UTC fractional
hour of `23` and adjusted day `0`, the source computes
`Math.trunc(-74 / 15) = -4`, so `-4 + 23 = 19 > 18` and the day is moved
back to `-1`; with the claim's `⌊-74 / 15⌋ = -5` the guard `18 < 18` fails
and the day would stay `0`. The claimed floor-based rule therefore
disagrees with the code for west longitudes. -/
theorem dateFromTime_floor_counterexample :
    (AstronomicalCalendar.dateFromTimeCore (-74) 0 23 true).day = -1 ∧
      (dateFromTimeFloorSpec (-74) 0 23 true).day = 0 ∧
      AstronomicalCalendar.dateFromTimeCore (-74) 0 23 true ≠ dateFromTimeFloorSpec (-74) 0 23 true := by
  have htr : jsTrunc ((-74 : ℚ) / 15) = -4 := by
    unfold jsTrunc
    rw [if_pos (by norm_num : (-74 : ℚ) / 15 < 0)]
    rw [Int.ceil_eq_iff]
    norm_num
  have hfl : (⌊(-74 : ℚ) / 15⌋ : ℤ) = -5 := by
    rw [Int.floor_eq_iff]
    norm_num
  have h23 : jsTrunc (23 : ℚ) = 23 := by
    rw [jsTrunc_of_nonneg (by norm_num)]
    norm_num
  have h1 : (AstronomicalCalendar.dateFromTimeCore (-74) 0 23 true).day = -1 := by
    simp only [AstronomicalCalendar.dateFromTimeCore, htr, h23]
    norm_num
  have h2 : (dateFromTimeFloorSpec (-74) 0 23 true).day = 0 := by
    simp only [dateFromTimeFloorSpec, hfl, h23]
    norm_num
  refine ⟨h1, h2, fun hcontra => ?_⟩
  rw [hcontra, h2] at h1
  exact absurd h1 (by norm_num)

/-- C1 amended: for every nonnegative UTC fractional hour and every
longitude (negative west longitudes included), `getDateFromTime` decomposes
the hour by repeated truncation — equivalently, into differences of scaled
floors — and applies the day-boundary correction with
`localOffsetHours = Math.trunc(longitude / 15)` (truncation toward zero,
not floor): subtract one day when computing a sunrise and
`localOffsetHours + hour > 18`, add one day when computing a sunset and
`localOffsetHours + hour < 6`. -/
theorem dateFromTime_trunc_decomposition :
    ∀ (longitude : ℚ) (adjustedDay : ℤ) (time : ℚ) (isSunrise : Bool), 0 ≤ time →
      AstronomicalCalendar.dateFromTimeCore longitude adjustedDay time isSunrise =
        dateFromTimeSpec longitude adjustedDay time isSunrise := by
  intro longitude d t rise ht
  have hh : jsTrunc t = ⌊t⌋ := jsTrunc_of_nonneg ht
  have hfr0 : (0 : ℚ) ≤ t - (⌊t⌋ : ℚ) := sub_nonneg.mpr (Int.floor_le t)
  have hm : jsTrunc ((t - (⌊t⌋ : ℚ)) * 60) = ⌊60 * t⌋ - 60 * ⌊t⌋ := by
    rw [jsTrunc_of_nonneg (mul_nonneg hfr0 (by norm_num)),
      show (t - (⌊t⌋ : ℚ)) * 60 = 60 * t - ((60 * ⌊t⌋ : ℤ) : ℚ) by push_cast; ring,
      Int.floor_sub_int]
  have ha2 : (t - (⌊t⌋ : ℚ)) * 60 - ((⌊60 * t⌋ - 60 * ⌊t⌋ : ℤ) : ℚ) =
      60 * t - (⌊60 * t⌋ : ℚ) := by
    push_cast
    ring
  have hfr1 : (0 : ℚ) ≤ 60 * t - (⌊60 * t⌋ : ℚ) := sub_nonneg.mpr (Int.floor_le (60 * t))
  have hs : jsTrunc ((60 * t - (⌊60 * t⌋ : ℚ)) * 60) = ⌊3600 * t⌋ - 60 * ⌊60 * t⌋ := by
    rw [jsTrunc_of_nonneg (mul_nonneg hfr1 (by norm_num)),
      show (60 * t - (⌊60 * t⌋ : ℚ)) * 60 = 3600 * t - ((60 * ⌊60 * t⌋ : ℤ) : ℚ) by
        push_cast; ring,
      Int.floor_sub_int]
  have ha3 : (60 * t - (⌊60 * t⌋ : ℚ)) * 60 - ((⌊3600 * t⌋ - 60 * ⌊60 * t⌋ : ℤ) : ℚ) =
      3600 * t - (⌊3600 * t⌋ : ℚ) := by
    push_cast
    ring
  have hfr2 : (0 : ℚ) ≤ 3600 * t - (⌊3600 * t⌋ : ℚ) := sub_nonneg.mpr (Int.floor_le (3600 * t))
  have hms : jsTrunc ((3600 * t - (⌊3600 * t⌋ : ℚ)) * 1000) =
      ⌊3600000 * t⌋ - 1000 * ⌊3600 * t⌋ := by
    rw [jsTrunc_of_nonneg (mul_nonneg hfr2 (by norm_num)),
      show (3600 * t - (⌊3600 * t⌋ : ℚ)) * 1000 = 3600000 * t - ((1000 * ⌊3600 * t⌋ : ℤ) : ℚ) by
        push_cast; ring,
      Int.floor_sub_int]
  simp only [AstronomicalCalendar.dateFromTimeCore, dateFromTimeSpec, hh, hm, ha2, hs, ha3, hms]

theorem dateFromTime_trunc_decomposition_witness :
    (0 : ℚ) ≤ 47 / 2 ∧
      AstronomicalCalendar.dateFromTimeCore (-74) 0 (47 / 2) true = dateFromTimeSpec (-74) 0 (47 / 2) true :=
  ⟨by norm_num, dateFromTime_trunc_decomposition (-74) 0 (47 / 2) true (by norm_num)⟩

theorem char_eq_of_toNat_eq {a b : Char} (h : a.toNat = b.toNat) : a = b :=
  Char.eq_of_val_eq (UInt32.ext h)

theorem strCmpList_antisymm : ∀ a b : List Char, strCmpList a b = -strCmpList b a := by
  intro a
  induction a with
  | nil =>
    intro b
    cases b <;> simp [strCmpList]
  | cons x xs ih =>
    intro b
    cases b with
    | nil => simp [strCmpList]
    | cons y ys =>
      by_cases h : x = y
      · subst h
        simp [strCmpList, ih ys]
      · have h2 : ¬ y = x := fun hc => h hc.symm
        simp only [strCmpList, if_neg h, if_neg h2]
        ring

theorem strCmpList_eq_zero_iff : ∀ a b : List Char, strCmpList a b = 0 ↔ a = b := by
  intro a
  induction a with
  | nil =>
    intro b
    cases b with
    | nil => simp [strCmpList]
    | cons y ys =>
      simp only [strCmpList]
      constructor
      · intro h
        exfalso
        omega
      · intro h
        exact absurd h (by simp)
  | cons x xs ih =>
    intro b
    cases b with
    | nil =>
      simp only [strCmpList]
      constructor
      · intro h
        exfalso
        omega
      · intro h
        exact absurd h (by simp)
    | cons y ys =>
      by_cases h : x = y
      · subst h
        simp [strCmpList, ih ys]
      · simp only [strCmpList, if_neg h]
        constructor
        · intro hc
          exfalso
          exact h (char_eq_of_toNat_eq (by omega))
        · intro hc
          exact absurd hc (by simp [h])

theorem strCmpList_neg_trans :
    ∀ a b c : List Char, strCmpList a b < 0 → strCmpList b c < 0 → strCmpList a c < 0 := by
  intro a
  induction a with
  | nil =>
    intro b c hab hbc
    cases c with
    | nil =>
      cases b with
      | nil => simp [strCmpList] at hab
      | cons y ys =>
        simp only [strCmpList] at hbc
        omega
    | cons z zs =>
      simp only [strCmpList]
      omega
  | cons x xs ih =>
    intro b c hab hbc
    cases b with
    | nil =>
      simp only [strCmpList] at hab
      omega
    | cons y ys =>
      cases c with
      | nil =>
        simp only [strCmpList] at hbc
        omega
      | cons z zs =>
        by_cases hxy : x = y
        · subst hxy
          simp only [strCmpList, if_pos rfl] at hab
          by_cases hyz : x = z
          · subst hyz
            simp only [strCmpList, if_pos rfl] at hbc ⊢
            exact ih ys zs hab hbc
          · simp only [strCmpList, if_neg hyz] at hbc ⊢
            exact hbc
        · simp only [strCmpList, if_neg hxy] at hab
          by_cases hyz : y = z
          · subst hyz
            simp only [strCmpList, if_neg hxy]
            exact hab
          · simp only [strCmpList, if_neg hyz] at hbc
            have hxz : ¬ x = z := by
              intro hc
              subst hc
              omega
            simp only [strCmpList, if_neg hxz]
            omega

theorem strCmpList_le_trans :
    ∀ a b c : List Char, strCmpList a b ≤ 0 → strCmpList b c ≤ 0 → strCmpList a c ≤ 0 := by
  intro a b c hab hbc
  rcases lt_or_eq_of_le hab with hab' | hab'
  · rcases lt_or_eq_of_le hbc with hbc' | hbc'
    · exact le_of_lt (strCmpList_neg_trans a b c hab' hbc')
    · have : b = c := (strCmpList_eq_zero_iff b c).mp hbc'
      subst this
      exact le_of_lt hab'
  · have : a = b := (strCmpList_eq_zero_iff a b).mp hab'
    subst this
    exact hbc

theorem intCompare_le_iff (x y : ℚ) : IntegerUtils.compare x y ≤ 0 ↔ x ≤ y := by
  unfold IntegerUtils.compare
  split_ifs with h1 h2
  · simp [h1]
  · constructor
    · intro h
      omega
    · intro h
      exact absurd h (not_le.mpr h2)
  · constructor
    · intro _
      exact le_of_not_lt h2
    · intro _
      omega

theorem intCompare_antisymm (x y : ℚ) :
    IntegerUtils.compare x y = -IntegerUtils.compare y x := by
  rcases lt_trichotomy x y with h | h | h
  · have hxy : ¬ x = y := ne_of_lt h
    have hyx : ¬ y = x := ne_of_gt h
    have h1 : ¬ y < x := not_lt.mpr h.le
    simp [IntegerUtils.compare, hxy, hyx, h1, h]
  · subst h
    simp [IntegerUtils.compare]
  · have hxy : ¬ x = y := ne_of_gt h
    have hyx : ¬ y = x := ne_of_lt h
    have h1 : ¬ x < y := not_lt.mpr h.le
    simp [IntegerUtils.compare, hxy, hyx, h1, h]

/-- C9: each of the three `Zman` comparators is a total function (the
embedding returns an integer for every pair, never erroring), substitutes
the stable fallback for a missing payload (epoch `0` for a missing instant,
`""` for a missing label, `0` for a missing duration), always returns a
negative, zero, or positive number, and is antisymmetric and transitive —
so any collection of `Zman` records can be consistently sorted by any of
them. -/
theorem zman_comparators_sortable :
    (∀ z1 z2 : Zman, z1.zman = none →
      Zman.compareDateOrder z1 z2 = IntegerUtils.compare 0 ((z2.zman.getD 0 : ℤ) : ℚ)) ∧
    (∀ z1 z2 : Zman, z1.label = none →
      Zman.compareNameOrder z1 z2 = StringUtils.compareTo "" (z2.label.getD "")) ∧
    (∀ z1 z2 : Zman, z1.duration = none →
      Zman.compareDurationOrder z1 z2 = IntegerUtils.compare 0 (z2.duration.getD 0)) ∧
    (∀ z1 z2 : Zman,
      (Zman.compareDateOrder z1 z2 < 0 ∨ Zman.compareDateOrder z1 z2 = 0 ∨
        0 < Zman.compareDateOrder z1 z2) ∧
      (Zman.compareNameOrder z1 z2 < 0 ∨ Zman.compareNameOrder z1 z2 = 0 ∨
        0 < Zman.compareNameOrder z1 z2) ∧
      (Zman.compareDurationOrder z1 z2 < 0 ∨ Zman.compareDurationOrder z1 z2 = 0 ∨
        0 < Zman.compareDurationOrder z1 z2)) ∧
    (∀ z1 z2 : Zman,
      Zman.compareDateOrder z1 z2 = -Zman.compareDateOrder z2 z1 ∧
      Zman.compareNameOrder z1 z2 = -Zman.compareNameOrder z2 z1 ∧
      Zman.compareDurationOrder z1 z2 = -Zman.compareDurationOrder z2 z1) ∧
    (∀ z1 z2 z3 : Zman, Zman.compareDateOrder z1 z2 ≤ 0 →
      Zman.compareDateOrder z2 z3 ≤ 0 → Zman.compareDateOrder z1 z3 ≤ 0) ∧
    (∀ z1 z2 z3 : Zman, Zman.compareNameOrder z1 z2 ≤ 0 →
      Zman.compareNameOrder z2 z3 ≤ 0 → Zman.compareNameOrder z1 z3 ≤ 0) ∧
    (∀ z1 z2 z3 : Zman, Zman.compareDurationOrder z1 z2 ≤ 0 →
      Zman.compareDurationOrder z2 z3 ≤ 0 → Zman.compareDurationOrder z1 z3 ≤ 0) := by
  refine ⟨?_, ?_, ?_, ?_, ?_, ?_, ?_, ?_⟩
  · intro z1 z2 h
    simp [Zman.compareDateOrder, h]
  · intro z1 z2 h
    simp [Zman.compareNameOrder, h]
  · intro z1 z2 h
    simp [Zman.compareDurationOrder, h]
  · intro z1 z2
    refine ⟨?_, ?_, ?_⟩ <;> omega
  · intro z1 z2
    exact ⟨intCompare_antisymm _ _, strCmpList_antisymm _ _, intCompare_antisymm _ _⟩
  · intro z1 z2 z3 h12 h23
    unfold Zman.compareDateOrder at h12 h23 ⊢
    rw [intCompare_le_iff] at h12 h23 ⊢
    exact le_trans h12 h23
  · intro z1 z2 z3 h12 h23
    exact strCmpList_le_trans _ _ _ h12 h23
  · intro z1 z2 z3 h12 h23
    unfold Zman.compareDurationOrder at h12 h23 ⊢
    rw [intCompare_le_iff] at h12 h23 ⊢
    exact le_trans h12 h23

theorem zman_comparators_sortable_witness :
    Zman.compareDateOrder ⟨none, none, none⟩ ⟨some "b", some 5, some 2⟩ =
      IntegerUtils.compare 0 (((Zman.mk (some "b") (some 5) (some 2)).zman.getD 0 : ℤ) : ℚ) ∧
    Zman.compareNameOrder ⟨none, none, none⟩ ⟨some "b", some 5, some 2⟩ =
      StringUtils.compareTo "" ((Zman.mk (some "b") (some 5) (some 2)).label.getD "") ∧
    Zman.compareDurationOrder ⟨some "a", some 4, some 1⟩ ⟨some "b", some 5, some 2⟩ ≤ 0 :=
  ⟨zman_comparators_sortable.1 ⟨none, none, none⟩ ⟨some "b", some 5, some 2⟩ rfl,
    zman_comparators_sortable.2.1 ⟨none, none, none⟩ ⟨some "b", some 5, some 2⟩ rfl,
    zman_comparators_sortable.2.2.2.2.2.2.2 ⟨some "a", some 4, some 1⟩
      ⟨some "a", some 4, some 1⟩ ⟨some "b", some 5, some 2⟩
      (by unfold Zman.compareDurationOrder; rw [intCompare_le_iff])
      (by unfold Zman.compareDurationOrder; rw [intCompare_le_iff]; norm_num)⟩

theorem nullCalculator_sunriseDipLoop_running :
    ∀ (fuel : ℕ) (minutes : ℚ) (offsetByTime : Option ℤ) (degrees : ℚ),
      nullCalculatorCalendar.sunriseDipLoop minutes offsetByTime fuel degrees none =
        DipSearchOutcome.running := by
  intro fuel
  induction fuel with
  | zero => intro _ _ _; rfl
  | succ n ih =>
    intro minutes offsetByTime degrees
    rw [AstronomicalCalendar.sunriseDipLoop]
    exact ih minutes offsetByTime _

theorem nullCalculator_sunsetDipLoop_running :
    ∀ (fuel : ℕ) (minutes : ℚ) (offsetByTime : Option ℤ) (degrees : ℚ),
      nullCalculatorCalendar.sunsetDipLoop minutes offsetByTime fuel degrees none =
        DipSearchOutcome.running := by
  intro fuel
  induction fuel with
  | zero => intro _ _ _; rfl
  | succ n ih =>
    intro minutes offsetByTime degrees
    rw [AstronomicalCalendar.sunsetDipLoop]
    exact ih minutes offsetByTime _

/-- C8 (code bug): the claim — and the spec's §4.3 — describe a search
that steps until the candidate crosses the target instant, comparing
ordered instants. The code as written instead throws: its loop conditions
compare two `Temporal.ZonedDateTime` values with JavaScript `<`/`>`, whose
`valueOf` throws `TypeError` per the Temporal specification, so on any
calendar whose sea-level candidate exists and any `minutes ≠ 0` (here the
ordinary `clearSkyCalendar` with `minutes = 72`) both searches throw on
their first condition evaluation, for every fuel bound. The parts of the
claim the code does realize are also proved: on a `null` candidate each
pass steps the exact decimal accumulator by exactly `0.0001`° (sunrise) /
`0.001`° (sunset) — adding when `minutes > 0`, subtracting otherwise — and
re-invokes `offsetByDegrees (90 + degrees)`; `minutes = 0` exits returning
the accumulator; and there is no iteration cap: with an always-absent
calculator (polar day/night) no amount of fuel makes either search
return. -/
theorem solar_dip_search_comparison_throws :
    (∀ fuel : ℕ,
      clearSkyCalendar.getSunriseSolarDipFromOffset 72 (fuel + 1) =
        DipSearchOutcome.thrown) ∧
    (∀ fuel : ℕ,
      clearSkyCalendar.getSunsetSolarDipFromOffset 72 (fuel + 1) =
        DipSearchOutcome.thrown) ∧
    (∀ (c : AstronomicalCalendar) (minutes : ℚ) (offsetByTime : Option ℤ) (fuel : ℕ)
        (degrees : ℚ),
      c.sunriseDipLoop minutes offsetByTime (fuel + 1) degrees none =
        c.sunriseDipLoop minutes offsetByTime fuel
          (if 0 < minutes then degrees + 1 / 10000 else degrees - 1 / 10000)
          (c.getSunriseOffsetByDegrees
            (90 + (if 0 < minutes then degrees + 1 / 10000 else degrees - 1 / 10000)))) ∧
    (∀ (c : AstronomicalCalendar) (minutes : ℚ) (offsetByTime : Option ℤ) (fuel : ℕ)
        (degrees : ℚ),
      c.sunsetDipLoop minutes offsetByTime (fuel + 1) degrees none =
        c.sunsetDipLoop minutes offsetByTime fuel
          (if 0 < minutes then degrees + 1 / 1000 else degrees - 1 / 1000)
          (c.getSunsetOffsetByDegrees
            (90 + (if 0 < minutes then degrees + 1 / 1000 else degrees - 1 / 1000)))) ∧
    (∀ (c : AstronomicalCalendar) (offsetByTime : Option ℤ) (fuel : ℕ) (degrees : ℚ)
        (candidate : CalendarTime),
      c.sunriseDipLoop 0 offsetByTime (fuel + 1) degrees (some candidate) =
        DipSearchOutcome.result degrees ∧
      c.sunsetDipLoop 0 offsetByTime (fuel + 1) degrees (some candidate) =
        DipSearchOutcome.result degrees) ∧
    (∀ (minutes : ℚ) (fuel : ℕ),
      nullCalculatorCalendar.getSunriseSolarDipFromOffset minutes fuel =
        DipSearchOutcome.running ∧
      nullCalculatorCalendar.getSunsetSolarDipFromOffset minutes fuel =
        DipSearchOutcome.running) := by
  refine ⟨?_, ?_, ?_, ?_, ?_, ?_⟩
  · intro fuel
    show clearSkyCalendar.sunriseDipLoop 72 _ (fuel + 1) 0 clearSkyCalendar.getSeaLevelSunrise
        = DipSearchOutcome.thrown
    rw [show clearSkyCalendar.getSeaLevelSunrise =
        some (clearSkyCalendar.getDateFromTime 6 true) from rfl,
      AstronomicalCalendar.sunriseDipLoop]
    rw [if_neg (by norm_num)]
  · intro fuel
    show clearSkyCalendar.sunsetDipLoop 72 _ (fuel + 1) 0 clearSkyCalendar.getSeaLevelSunset
        = DipSearchOutcome.thrown
    rw [show clearSkyCalendar.getSeaLevelSunset =
        some (clearSkyCalendar.getDateFromTime 18 false) from rfl,
      AstronomicalCalendar.sunsetDipLoop]
    rw [if_neg (by norm_num)]
  · intro c minutes offsetByTime fuel degrees
    rw [AstronomicalCalendar.sunriseDipLoop]
  · intro c minutes offsetByTime fuel degrees
    rw [AstronomicalCalendar.sunsetDipLoop]
  · intro c offsetByTime fuel degrees candidate
    constructor
    · rw [AstronomicalCalendar.sunriseDipLoop]
      rw [if_pos rfl]
    · rw [AstronomicalCalendar.sunsetDipLoop]
      rw [if_pos rfl]
  · intro minutes fuel
    constructor
    · show nullCalculatorCalendar.sunriseDipLoop minutes _ fuel 0 none =
        DipSearchOutcome.running
      exact nullCalculator_sunriseDipLoop_running fuel minutes _ 0
    · show nullCalculatorCalendar.sunsetDipLoop minutes _ fuel 0 none =
        DipSearchOutcome.running
      exact nullCalculator_sunsetDipLoop_running fuel minutes _ 0

theorem SunTimesCalculator.wrapUp_nonneg (q : ℚ) : 0 ≤ SunTimesCalculator.wrapUp q := by
  induction q using SunTimesCalculator.wrapUp.induct with
  | case1 q h ih =>
    rw [SunTimesCalculator.wrapUp, if_pos h]
    exact ih
  | case2 q h =>
    rw [SunTimesCalculator.wrapUp, if_neg h]
    linarith

theorem SunTimesCalculator.wrapDown_nonneg :
    ∀ q : ℚ, 0 ≤ q → 0 ≤ SunTimesCalculator.wrapDown q := by
  intro q
  induction q using SunTimesCalculator.wrapDown.induct with
  | case1 q h ih =>
    intro _
    rw [SunTimesCalculator.wrapDown, if_pos h]
    exact ih (by linarith)
  | case2 q h =>
    intro hq
    rw [SunTimesCalculator.wrapDown, if_neg h]
    exact hq

theorem SunTimesCalculator.wrapDown_lt (q : ℚ) : SunTimesCalculator.wrapDown q < 24 := by
  induction q using SunTimesCalculator.wrapDown.induct with
  | case1 q h ih =>
    rw [SunTimesCalculator.wrapDown, if_pos h]
    exact ih
  | case2 q h =>
    rw [SunTimesCalculator.wrapDown, if_neg h]
    exact lt_of_not_le h

theorem SunTimesCalculator.wrapUp_eq_self {q : ℚ} (h : 0 ≤ q) :
    SunTimesCalculator.wrapUp q = q := by
  rw [SunTimesCalculator.wrapUp, if_neg (not_lt.mpr h)]

theorem SunTimesCalculator.wrapDown_eq_self {q : ℚ} (h : q < 24) :
    SunTimesCalculator.wrapDown q = q := by
  rw [SunTimesCalculator.wrapDown, if_neg (not_le.mpr h)]

theorem SunTimesCalculator.getTimeUTC_dichotomy (stc : SunTimesCalculator) (day : ℤ)
    (long lat zen : ℚ) (rise : Bool) :
    stc.getTimeUTC day long lat zen rise = none ∨
      ∃ q, stc.getTimeUTC day long lat zen rise = some q ∧ 0 ≤ q ∧ q < 24 := by
  unfold SunTimesCalculator.getTimeUTC
  cases h : stc.preWrapTimeUTC day long lat zen rise with
  | none =>
    exact Or.inl rfl
  | some p =>
    exact Or.inr ⟨SunTimesCalculator.wrapDown (SunTimesCalculator.wrapUp p), rfl,
      SunTimesCalculator.wrapDown_nonneg _ (SunTimesCalculator.wrapUp_nonneg p),
      SunTimesCalculator.wrapDown_lt _⟩

theorem SunTimesCalculator.getTimeUTC_none_iff (stc : SunTimesCalculator)
    (hacos : ∀ x, stc.acosDeg x = none ↔ ¬(-1 ≤ x ∧ x ≤ 1)) (day : ℤ)
    (long lat zen : ℚ) (rise : Bool) :
    stc.getTimeUTC day long lat zen rise = none ↔
      stc.crossingFails day long lat zen rise := by
  unfold SunTimesCalculator.getTimeUTC SunTimesCalculator.preWrapTimeUTC
    SunTimesCalculator.crossingFails
  cases h : stc.getCosLocalHourAngle
      (stc.getSunTrueLongitude (SunTimesCalculator.getMeanAnomaly day long rise)) lat zen with
  | none => simp [h]
  | some c => simp [h, hacos c]

theorem SunTimesCalculator.getTimeUTC_some_structure (stc : SunTimesCalculator) (day : ℤ)
    (long lat zen : ℚ) (rise : Bool) :
    ∀ q, stc.getTimeUTC day long lat zen rise = some q →
      ∃ pre, stc.preWrapTimeUTC day long lat zen rise = some pre ∧
        q = SunTimesCalculator.wrapDown (SunTimesCalculator.wrapUp pre) := by
  intro q hq
  unfold SunTimesCalculator.getTimeUTC at hq
  cases h : stc.preWrapTimeUTC day long lat zen rise with
  | none =>
    rw [h] at hq
    exact absurd hq (by simp)
  | some p =>
    rw [h] at hq
    exact ⟨p, rfl, by simpa using hq.symm⟩

/-- C3: for every date, location, zenith and elevation-adjust flag, the
approximate calculator's `utcSunrise` and `utcSunset` are total (the
embedding returns a value for every input, never throwing): each returns
the absent sentinel exactly when the geometric crossing condition for the
(elevation-)adjusted zenith fails (the cosine of the local hour angle is
`NaN` or outside `[-1, 1]`), and otherwise a fractional hour in `[0, 24)`
obtained by applying the repeated `±24` wraparound loops to the
local-mean-time value after subtracting the meridian offset. Stated for
any interpretation of the floating-point transcendental helpers on which
`acos` returns `NaN` exactly outside `[-1, 1]`. -/
theorem sunTimes_utc_absent_or_wrapped :
    ∀ stc : SunTimesCalculator,
      (∀ x, stc.acosDeg x = none ↔ ¬(-1 ≤ x ∧ x ≤ 1)) →
      ∀ (dayOfYear : ℤ) (geo : GeoLocation) (zenith : ℚ) (adjustForElevation : Bool),
        ((stc.getUTCSunrise dayOfYear geo zenith adjustForElevation = none ∨
            ∃ q, stc.getUTCSunrise dayOfYear geo zenith adjustForElevation = some q ∧
              0 ≤ q ∧ q < 24) ∧
          (stc.getUTCSunrise dayOfYear geo zenith adjustForElevation = none ↔
            stc.crossingFails dayOfYear geo.longitude geo.latitude
              (stc.adjustZenith zenith (if adjustForElevation then geo.elevation else 0))
              true) ∧
          (∀ q, stc.getUTCSunrise dayOfYear geo zenith adjustForElevation = some q →
            ∃ pre, stc.preWrapTimeUTC dayOfYear geo.longitude geo.latitude
                (stc.adjustZenith zenith (if adjustForElevation then geo.elevation else 0))
                true = some pre ∧
              q = SunTimesCalculator.wrapDown (SunTimesCalculator.wrapUp pre))) ∧
        ((stc.getUTCSunset dayOfYear geo zenith adjustForElevation = none ∨
            ∃ q, stc.getUTCSunset dayOfYear geo zenith adjustForElevation = some q ∧
              0 ≤ q ∧ q < 24) ∧
          (stc.getUTCSunset dayOfYear geo zenith adjustForElevation = none ↔
            stc.crossingFails dayOfYear geo.longitude geo.latitude
              (stc.adjustZenith zenith (if adjustForElevation then geo.elevation else 0))
              false) ∧
          (∀ q, stc.getUTCSunset dayOfYear geo zenith adjustForElevation = some q →
            ∃ pre, stc.preWrapTimeUTC dayOfYear geo.longitude geo.latitude
                (stc.adjustZenith zenith (if adjustForElevation then geo.elevation else 0))
                false = some pre ∧
              q = SunTimesCalculator.wrapDown (SunTimesCalculator.wrapUp pre))) := by
  intro stc hacos dayOfYear geo zenith adj
  exact ⟨⟨SunTimesCalculator.getTimeUTC_dichotomy stc dayOfYear geo.longitude geo.latitude _ true,
      SunTimesCalculator.getTimeUTC_none_iff stc hacos dayOfYear geo.longitude geo.latitude _
        true,
      SunTimesCalculator.getTimeUTC_some_structure stc dayOfYear geo.longitude geo.latitude _
        true⟩,
    ⟨SunTimesCalculator.getTimeUTC_dichotomy stc dayOfYear geo.longitude geo.latitude _ false,
      SunTimesCalculator.getTimeUTC_none_iff stc hacos dayOfYear geo.longitude geo.latitude _
        false,
      SunTimesCalculator.getTimeUTC_some_structure stc dayOfYear geo.longitude geo.latitude _
        false⟩⟩

theorem sunTimes_utc_absent_or_wrapped_witness :
    linearSunCalc.getUTCSunrise 1 eastGeo 90 true = none ∨
      ∃ q, linearSunCalc.getUTCSunrise 1 eastGeo 90 true = some q ∧ 0 ≤ q ∧ q < 24 :=
  (sunTimes_utc_absent_or_wrapped linearSunCalc
    (by
      intro x
      by_cases h : -1 ≤ x ∧ x ≤ 1 <;> simp [linearSunCalc, h])
    1 eastGeo 90 true).1.1

theorem SunTimesCalculator.preWrap_rise_antitone (stc : SunTimesCalculator) (day : ℤ)
    (long lat z1 z2 : ℚ)
    (hacosAnti : ∀ x y u v : ℚ,
      stc.acosDeg x = some u → stc.acosDeg y = some v → x ≤ y → v ≤ u)
    (hden : ∀ dec : ℚ,
      stc.asinDeg (39782 / 100000 * stc.sinDeg
        (stc.getSunTrueLongitude (SunTimesCalculator.getMeanAnomaly day long true))) =
          some dec →
      0 < stc.cosDeg dec * stc.cosDeg lat)
    (hz : stc.cosDeg z2 ≤ stc.cosDeg z1)
    {p1 p2 : ℚ}
    (h1 : stc.preWrapTimeUTC day long lat z1 true = some p1)
    (h2 : stc.preWrapTimeUTC day long lat z2 true = some p2) :
    p2 ≤ p1 := by
  simp only [SunTimesCalculator.preWrapTimeUTC] at h1 h2
  rcases Option.bind_eq_some.mp h1 with ⟨c1, hc1, h1'⟩
  rcases Option.map_eq_some'.mp h1' with ⟨a1, ha1, hp1⟩
  rcases Option.bind_eq_some.mp h2 with ⟨c2, hc2, h2'⟩
  rcases Option.map_eq_some'.mp h2' with ⟨a2, ha2, hp2⟩
  simp only [SunTimesCalculator.getCosLocalHourAngle] at hc1 hc2
  rcases Option.bind_eq_some.mp hc1 with ⟨dec1, hdec1, hif1⟩
  rcases Option.bind_eq_some.mp hc2 with ⟨dec2, hdec2, hif2⟩
  have hdec12 : dec1 = dec2 := Option.some_injective _ (hdec1.symm.trans hdec2)
  subst hdec12
  by_cases h0 : stc.cosDeg dec1 * stc.cosDeg lat = 0
  · rw [if_pos h0] at hif1
    exact absurd hif1 (by simp)
  · rw [if_neg h0] at hif1 hif2
    have hdpos : 0 < stc.cosDeg dec1 * stc.cosDeg lat := hden dec1 hdec1
    have hc1e := Option.some_injective _ hif1
    have hc2e := Option.some_injective _ hif2
    have hc21 : c2 ≤ c1 := by
      rw [← hc1e, ← hc2e]
      exact (div_le_div_iff_of_pos_right hdpos).mpr (by linarith)
    have ha12 : a1 ≤ a2 := hacosAnti c2 c1 a2 a1 ha2 ha1 hc21
    simp only [if_true, SunTimesCalculator.getLocalMeanTime] at hp1 hp2
    rw [← hp1, ← hp2]
    have hdeg : (0 : ℚ) < SunTimesCalculator.DEG_PER_HOUR := by
      norm_num [SunTimesCalculator.DEG_PER_HOUR]
    have : (360 - a2) / SunTimesCalculator.DEG_PER_HOUR ≤
        (360 - a1) / SunTimesCalculator.DEG_PER_HOUR :=
      (div_le_div_iff_of_pos_right hdeg).mpr (by linarith)
    linarith

theorem SunTimesCalculator.preWrap_set_monotone (stc : SunTimesCalculator) (day : ℤ)
    (long lat z1 z2 : ℚ)
    (hacosAnti : ∀ x y u v : ℚ,
      stc.acosDeg x = some u → stc.acosDeg y = some v → x ≤ y → v ≤ u)
    (hden : ∀ dec : ℚ,
      stc.asinDeg (39782 / 100000 * stc.sinDeg
        (stc.getSunTrueLongitude (SunTimesCalculator.getMeanAnomaly day long false))) =
          some dec →
      0 < stc.cosDeg dec * stc.cosDeg lat)
    (hz : stc.cosDeg z2 ≤ stc.cosDeg z1)
    {p1 p2 : ℚ}
    (h1 : stc.preWrapTimeUTC day long lat z1 false = some p1)
    (h2 : stc.preWrapTimeUTC day long lat z2 false = some p2) :
    p1 ≤ p2 := by
  simp only [SunTimesCalculator.preWrapTimeUTC] at h1 h2
  rcases Option.bind_eq_some.mp h1 with ⟨c1, hc1, h1'⟩
  rcases Option.map_eq_some'.mp h1' with ⟨a1, ha1, hp1⟩
  rcases Option.bind_eq_some.mp h2 with ⟨c2, hc2, h2'⟩
  rcases Option.map_eq_some'.mp h2' with ⟨a2, ha2, hp2⟩
  simp only [SunTimesCalculator.getCosLocalHourAngle] at hc1 hc2
  rcases Option.bind_eq_some.mp hc1 with ⟨dec1, hdec1, hif1⟩
  rcases Option.bind_eq_some.mp hc2 with ⟨dec2, hdec2, hif2⟩
  have hdec12 : dec1 = dec2 := Option.some_injective _ (hdec1.symm.trans hdec2)
  subst hdec12
  by_cases h0 : stc.cosDeg dec1 * stc.cosDeg lat = 0
  · rw [if_pos h0] at hif1
    exact absurd hif1 (by simp)
  · rw [if_neg h0] at hif1 hif2
    have hdpos : 0 < stc.cosDeg dec1 * stc.cosDeg lat := hden dec1 hdec1
    have hc1e := Option.some_injective _ hif1
    have hc2e := Option.some_injective _ hif2
    have hc21 : c2 ≤ c1 := by
      rw [← hc1e, ← hc2e]
      exact (div_le_div_iff_of_pos_right hdpos).mpr (by linarith)
    have ha12 : a1 ≤ a2 := hacosAnti c2 c1 a2 a1 ha2 ha1 hc21
    simp only [Bool.false_eq_true, if_false, SunTimesCalculator.getLocalMeanTime] at hp1 hp2
    rw [← hp1, ← hp2]
    have hdeg : (0 : ℚ) < SunTimesCalculator.DEG_PER_HOUR := by
      norm_num [SunTimesCalculator.DEG_PER_HOUR]
    have : a1 / SunTimesCalculator.DEG_PER_HOUR ≤ a2 / SunTimesCalculator.DEG_PER_HOUR :=
      (div_le_div_iff_of_pos_right hdeg).mpr ha12
    linarith

theorem epochMs_dateFromTimeCore (long : ℚ) (d : ℤ) (t : ℚ) (rise : Bool) (ht : 0 ≤ t) :
    (AstronomicalCalendar.dateFromTimeCore long d t rise).epochMs =
      (AstronomicalCalendar.dateFromTimeCore long d t rise).day * 86400000 +
        ⌊(3600000 : ℚ) * t⌋ := by
  rw [dateFromTime_trunc_decomposition long d t rise ht]
  simp only [dateFromTimeSpec, CalendarTime.epochMs]
  ring

theorem epochMs_dateFromTimeCore_mono (long : ℚ) (d : ℤ) (rise : Bool) {t' t : ℚ}
    (ht' : 0 ≤ t') (htt : t' ≤ t)
    (hday : (AstronomicalCalendar.dateFromTimeCore long d t' rise).day =
      (AstronomicalCalendar.dateFromTimeCore long d t rise).day) :
    (AstronomicalCalendar.dateFromTimeCore long d t' rise).epochMs ≤
      (AstronomicalCalendar.dateFromTimeCore long d t rise).epochMs := by
  have ht : 0 ≤ t := le_trans ht' htt
  rw [epochMs_dateFromTimeCore long d t' rise ht', epochMs_dateFromTimeCore long d t rise ht,
    hday]
  have hfl : ⌊(3600000 : ℚ) * t'⌋ ≤ ⌊(3600000 : ℚ) * t⌋ := Int.floor_le_floor (by linarith)
  omega

/-- A conditional monotonicity result about the embedded almanac chain (it
does not settle a claim by itself): for any interpretation of the
floating-point trigonometric helpers satisfying the corresponding facts of
real trigonometry (cosine antitone on `[90°, 180°]`, `acos` antitone where
defined, the elevation dip zero at zero elevation and nonnegative for
nonnegative elevation), any location with `elevation ≥ 0` whose adjusted
zenith stays within 180° and whose hour-angle denominator is positive
(non-polar latitude), if all four values are non-absent and the day carries
no midnight wraparound (pre-normalization values in `[0, 24)`), then the
elevation-adjusted sunrise UTC hour is at or before the sea-level sunrise
UTC hour and the elevation-adjusted sunset UTC hour is at or after the
sea-level sunset UTC hour; and whenever the day-boundary correction
shifts both members of a pair alike, the same ordering holds for the final
instants produced by `getDateFromTime`. -/
theorem elevation_adjusted_brackets_sea_level :
    ∀ (stc : SunTimesCalculator) (day : ℤ) (geo : GeoLocation) (tAdj tSea sAdj sSea : ℚ),
      (∀ a b : ℚ, 90 ≤ a → a ≤ b → b ≤ 180 → stc.cosDeg b ≤ stc.cosDeg a) →
      (∀ x y u v : ℚ,
        stc.acosDeg x = some u → stc.acosDeg y = some v → x ≤ y → v ≤ u) →
      stc.elevationDip 0 = 0 →
      (∀ e : ℚ, 0 ≤ e → 0 ≤ stc.elevationDip e) →
      0 ≤ geo.elevation →
      stc.adjustZenith 90 geo.elevation ≤ 180 →
      (∀ dec : ℚ,
        stc.asinDeg (39782 / 100000 * stc.sinDeg
          (stc.getSunTrueLongitude
            (SunTimesCalculator.getMeanAnomaly day geo.longitude true))) = some dec →
        0 < stc.cosDeg dec * stc.cosDeg geo.latitude) →
      (∀ dec : ℚ,
        stc.asinDeg (39782 / 100000 * stc.sinDeg
          (stc.getSunTrueLongitude
            (SunTimesCalculator.getMeanAnomaly day geo.longitude false))) = some dec →
        0 < stc.cosDeg dec * stc.cosDeg geo.latitude) →
      stc.getUTCSunrise day geo 90 true = some tAdj →
      stc.getUTCSunrise day geo 90 false = some tSea →
      stc.getUTCSunset day geo 90 true = some sAdj →
      stc.getUTCSunset day geo 90 false = some sSea →
      (∀ p, stc.preWrapTimeUTC day geo.longitude geo.latitude
          (stc.adjustZenith 90 geo.elevation) true = some p → 0 ≤ p) →
      (∀ p, stc.preWrapTimeUTC day geo.longitude geo.latitude
          (stc.adjustZenith 90 0) true = some p → p < 24) →
      (∀ p, stc.preWrapTimeUTC day geo.longitude geo.latitude
          (stc.adjustZenith 90 0) false = some p → 0 ≤ p) →
      (∀ p, stc.preWrapTimeUTC day geo.longitude geo.latitude
          (stc.adjustZenith 90 geo.elevation) false = some p → p < 24) →
      tAdj ≤ tSea ∧ sSea ≤ sAdj ∧
      (∀ d : ℤ,
        (AstronomicalCalendar.dateFromTimeCore geo.longitude d tAdj true).day =
          (AstronomicalCalendar.dateFromTimeCore geo.longitude d tSea true).day →
        (AstronomicalCalendar.dateFromTimeCore geo.longitude d tAdj true).epochMs ≤
          (AstronomicalCalendar.dateFromTimeCore geo.longitude d tSea true).epochMs) ∧
      (∀ d : ℤ,
        (AstronomicalCalendar.dateFromTimeCore geo.longitude d sSea false).day =
          (AstronomicalCalendar.dateFromTimeCore geo.longitude d sAdj false).day →
        (AstronomicalCalendar.dateFromTimeCore geo.longitude d sSea false).epochMs ≤
          (AstronomicalCalendar.dateFromTimeCore geo.longitude d sAdj false).epochMs) := by
  intro stc day geo tAdj tSea sAdj sSea hcos hacos hdip0 hdipnn helev hz180
    hdenR hdenS hA hSea hA2 hSea2 hw1 hw2 hw3 hw4
  have hzS : stc.adjustZenith 90 0 = 90 + 5 / 6 := by
    simp [SunTimesCalculator.adjustZenith, hdip0]
  have hzSA : stc.adjustZenith 90 0 ≤ stc.adjustZenith 90 geo.elevation := by
    have := hdipnn geo.elevation helev
    simp only [SunTimesCalculator.adjustZenith, hdip0]
    linarith
  have h90 : (90 : ℚ) ≤ stc.adjustZenith 90 0 := by
    rw [hzS]
    norm_num
  have hcosZ : stc.cosDeg (stc.adjustZenith 90 geo.elevation) ≤
      stc.cosDeg (stc.adjustZenith 90 0) :=
    hcos _ _ h90 hzSA hz180
  obtain ⟨pA, hpA, htA⟩ :=
    SunTimesCalculator.getTimeUTC_some_structure stc day geo.longitude geo.latitude
      (stc.adjustZenith 90 geo.elevation) true tAdj hA
  obtain ⟨pS, hpS, htS⟩ :=
    SunTimesCalculator.getTimeUTC_some_structure stc day geo.longitude geo.latitude
      (stc.adjustZenith 90 0) true tSea hSea
  have hple : pA ≤ pS :=
    SunTimesCalculator.preWrap_rise_antitone stc day geo.longitude geo.latitude
      (stc.adjustZenith 90 0) (stc.adjustZenith 90 geo.elevation) hacos hdenR hcosZ hpS hpA
  have h0A : 0 ≤ pA := hw1 pA hpA
  have hS24 : pS < 24 := hw2 pS hpS
  have h0S : 0 ≤ pS := le_trans h0A hple
  have hA24 : pA < 24 := lt_of_le_of_lt hple hS24
  have htAv : tAdj = pA := by
    rw [htA, SunTimesCalculator.wrapUp_eq_self h0A, SunTimesCalculator.wrapDown_eq_self hA24]
  have htSv : tSea = pS := by
    rw [htS, SunTimesCalculator.wrapUp_eq_self h0S, SunTimesCalculator.wrapDown_eq_self hS24]
  have hrise : tAdj ≤ tSea := by
    rw [htAv, htSv]
    exact hple
  obtain ⟨qA, hqA, hsA⟩ :=
    SunTimesCalculator.getTimeUTC_some_structure stc day geo.longitude geo.latitude
      (stc.adjustZenith 90 geo.elevation) false sAdj hA2
  obtain ⟨qS, hqS, hsS⟩ :=
    SunTimesCalculator.getTimeUTC_some_structure stc day geo.longitude geo.latitude
      (stc.adjustZenith 90 0) false sSea hSea2
  have hqle : qS ≤ qA :=
    SunTimesCalculator.preWrap_set_monotone stc day geo.longitude geo.latitude
      (stc.adjustZenith 90 0) (stc.adjustZenith 90 geo.elevation) hacos hdenS hcosZ hqS hqA
  have h0qS : 0 ≤ qS := hw3 qS hqS
  have hqA24 : qA < 24 := hw4 qA hqA
  have h0qA : 0 ≤ qA := le_trans h0qS hqle
  have hqS24 : qS < 24 := lt_of_le_of_lt hqle hqA24
  have hsAv : sAdj = qA := by
    rw [hsA, SunTimesCalculator.wrapUp_eq_self h0qA, SunTimesCalculator.wrapDown_eq_self hqA24]
  have hsSv : sSea = qS := by
    rw [hsS, SunTimesCalculator.wrapUp_eq_self h0qS, SunTimesCalculator.wrapDown_eq_self hqS24]
  have hset : sSea ≤ sAdj := by
    rw [hsAv, hsSv]
    exact hqle
  refine ⟨hrise, hset, ?_, ?_⟩
  · intro d hday
    exact epochMs_dateFromTimeCore_mono geo.longitude d true (by rw [htAv]; exact h0A)
      hrise hday
  · intro d hday
    exact epochMs_dateFromTimeCore_mono geo.longitude d false (by rw [hsSv]; exact h0qS)
      hset hday

theorem linearSunCalc_preWrap_rise_adj :
    linearSunCalc.preWrapTimeUTC 1 eastGeo.longitude eastGeo.latitude (599 / 6) true =
      some (20391061 / 900000) := by
  simp only [SunTimesCalculator.preWrapTimeUTC, SunTimesCalculator.getCosLocalHourAngle,
    SunTimesCalculator.getSunTrueLongitude, SunTimesCalculator.getSunRightAscensionHours,
    SunTimesCalculator.getMeanAnomaly, SunTimesCalculator.getApproxTimeDays,
    SunTimesCalculator.getHoursFromMeridian, SunTimesCalculator.getLocalMeanTime,
    SunTimesCalculator.DEG_PER_HOUR, linearSunCalc, eastGeo]
  norm_num

theorem linearSunCalc_preWrap_rise_sea :
    linearSunCalc.preWrapTimeUTC 1 eastGeo.longitude eastGeo.latitude (545 / 6) true =
      some (20931061 / 900000) := by
  simp only [SunTimesCalculator.preWrapTimeUTC, SunTimesCalculator.getCosLocalHourAngle,
    SunTimesCalculator.getSunTrueLongitude, SunTimesCalculator.getSunRightAscensionHours,
    SunTimesCalculator.getMeanAnomaly, SunTimesCalculator.getApproxTimeDays,
    SunTimesCalculator.getHoursFromMeridian, SunTimesCalculator.getLocalMeanTime,
    SunTimesCalculator.DEG_PER_HOUR, linearSunCalc, eastGeo]
  norm_num

theorem linearSunCalc_preWrap_set_sea :
    linearSunCalc.preWrapTimeUTC 1 eastGeo.longitude eastGeo.latitude (545 / 6) false =
      some (20402983 / 1800000) := by
  simp only [SunTimesCalculator.preWrapTimeUTC, SunTimesCalculator.getCosLocalHourAngle,
    SunTimesCalculator.getSunTrueLongitude, SunTimesCalculator.getSunRightAscensionHours,
    SunTimesCalculator.getMeanAnomaly, SunTimesCalculator.getApproxTimeDays,
    SunTimesCalculator.getHoursFromMeridian, SunTimesCalculator.getLocalMeanTime,
    SunTimesCalculator.DEG_PER_HOUR, linearSunCalc, eastGeo]
  norm_num

theorem linearSunCalc_preWrap_set_adj :
    linearSunCalc.preWrapTimeUTC 1 eastGeo.longitude eastGeo.latitude (599 / 6) false =
      some (21482983 / 1800000) := by
  simp only [SunTimesCalculator.preWrapTimeUTC, SunTimesCalculator.getCosLocalHourAngle,
    SunTimesCalculator.getSunTrueLongitude, SunTimesCalculator.getSunRightAscensionHours,
    SunTimesCalculator.getMeanAnomaly, SunTimesCalculator.getApproxTimeDays,
    SunTimesCalculator.getHoursFromMeridian, SunTimesCalculator.getLocalMeanTime,
    SunTimesCalculator.DEG_PER_HOUR, linearSunCalc, eastGeo]
  norm_num

theorem linearSunCalc_adjustZenith_elev :
    linearSunCalc.adjustZenith 90 eastGeo.elevation = 599 / 6 := by
  norm_num [SunTimesCalculator.adjustZenith, linearSunCalc, eastGeo]

theorem linearSunCalc_adjustZenith_sea :
    linearSunCalc.adjustZenith 90 0 = 545 / 6 := by
  norm_num [SunTimesCalculator.adjustZenith, linearSunCalc]

theorem linearSunCalc_getUTCSunrise_adj :
    linearSunCalc.getUTCSunrise 1 eastGeo 90 true = some (20391061 / 900000) := by
  have h1 : linearSunCalc.getUTCSunrise 1 eastGeo 90 true =
      linearSunCalc.getTimeUTC 1 eastGeo.longitude eastGeo.latitude (599 / 6) true := by
    simp only [SunTimesCalculator.getUTCSunrise, if_true, linearSunCalc_adjustZenith_elev]
  rw [h1, SunTimesCalculator.getTimeUTC, linearSunCalc_preWrap_rise_adj]
  simp only [Option.map_some']
  rw [SunTimesCalculator.wrapUp_eq_self (by norm_num),
    SunTimesCalculator.wrapDown_eq_self (by norm_num)]

theorem linearSunCalc_getUTCSunrise_sea :
    linearSunCalc.getUTCSunrise 1 eastGeo 90 false = some (20931061 / 900000) := by
  have h1 : linearSunCalc.getUTCSunrise 1 eastGeo 90 false =
      linearSunCalc.getTimeUTC 1 eastGeo.longitude eastGeo.latitude (545 / 6) true := by
    simp only [SunTimesCalculator.getUTCSunrise, Bool.false_eq_true, if_false,
      linearSunCalc_adjustZenith_sea]
  rw [h1, SunTimesCalculator.getTimeUTC, linearSunCalc_preWrap_rise_sea]
  simp only [Option.map_some']
  rw [SunTimesCalculator.wrapUp_eq_self (by norm_num),
    SunTimesCalculator.wrapDown_eq_self (by norm_num)]

theorem linearSunCalc_getUTCSunset_adj :
    linearSunCalc.getUTCSunset 1 eastGeo 90 true = some (21482983 / 1800000) := by
  have h1 : linearSunCalc.getUTCSunset 1 eastGeo 90 true =
      linearSunCalc.getTimeUTC 1 eastGeo.longitude eastGeo.latitude (599 / 6) false := by
    simp only [SunTimesCalculator.getUTCSunset, if_true, linearSunCalc_adjustZenith_elev]
  rw [h1, SunTimesCalculator.getTimeUTC, linearSunCalc_preWrap_set_adj]
  simp only [Option.map_some']
  rw [SunTimesCalculator.wrapUp_eq_self (by norm_num),
    SunTimesCalculator.wrapDown_eq_self (by norm_num)]

theorem linearSunCalc_getUTCSunset_sea :
    linearSunCalc.getUTCSunset 1 eastGeo 90 false = some (20402983 / 1800000) := by
  have h1 : linearSunCalc.getUTCSunset 1 eastGeo 90 false =
      linearSunCalc.getTimeUTC 1 eastGeo.longitude eastGeo.latitude (545 / 6) false := by
    simp only [SunTimesCalculator.getUTCSunset, Bool.false_eq_true, if_false,
      linearSunCalc_adjustZenith_sea]
  rw [h1, SunTimesCalculator.getTimeUTC, linearSunCalc_preWrap_set_sea]
  simp only [Option.map_some']
  rw [SunTimesCalculator.wrapUp_eq_self (by norm_num),
    SunTimesCalculator.wrapDown_eq_self (by norm_num)]

theorem elevation_adjusted_brackets_sea_level_witness :
    (20391061 / 900000 : ℚ) ≤ 20931061 / 900000 ∧
      (20402983 / 1800000 : ℚ) ≤ 21482983 / 1800000 := by
  have h := elevation_adjusted_brackets_sea_level linearSunCalc 1 eastGeo
    (20391061 / 900000) (20931061 / 900000) (21482983 / 1800000) (20402983 / 1800000)
    (by
      intro a b h1 h2 h3
      simp only [linearSunCalc]
      linarith)
    (by
      intro x y u v hu hv hxy
      simp only [linearSunCalc] at hu hv
      split_ifs at hu hv with h1 h2
      · have hu' := Option.some_injective _ hu
        have hv' := Option.some_injective _ hv
        rw [← hu', ← hv']
        linarith)
    rfl
    (by
      intro e he
      simpa [linearSunCalc] using he)
    (by norm_num [eastGeo])
    (by norm_num [SunTimesCalculator.adjustZenith, linearSunCalc, eastGeo])
    (by
      intro dec h
      norm_num [linearSunCalc] at h
      subst h
      norm_num [linearSunCalc, eastGeo])
    (by
      intro dec h
      norm_num [linearSunCalc] at h
      subst h
      norm_num [linearSunCalc, eastGeo])
    linearSunCalc_getUTCSunrise_adj
    linearSunCalc_getUTCSunrise_sea
    linearSunCalc_getUTCSunset_adj
    linearSunCalc_getUTCSunset_sea
    (by
      intro p hp
      rw [linearSunCalc_adjustZenith_elev, linearSunCalc_preWrap_rise_adj] at hp
      injection hp with hp'
      rw [← hp']
      norm_num)
    (by
      intro p hp
      rw [linearSunCalc_adjustZenith_sea, linearSunCalc_preWrap_rise_sea] at hp
      injection hp with hp'
      rw [← hp']
      norm_num)
    (by
      intro p hp
      rw [linearSunCalc_adjustZenith_sea, linearSunCalc_preWrap_set_sea] at hp
      injection hp with hp'
      rw [← hp']
      norm_num)
    (by
      intro p hp
      rw [linearSunCalc_adjustZenith_elev, linearSunCalc_preWrap_set_adj] at hp
      injection hp with hp'
      rw [← hp']
      norm_num)
  exact ⟨h.1, h.2.1⟩
